import Mathlib

/-!
Shallow embedding of the slot-sandbox core of the data_interface repository.

Embedded source files:
* src/poc/src/runtime/worker/slotWorker.js - the worker-side AST code
  validator (validateSlot), the deterministic utility library (createUtils),
  the worker output validator (validateOutput) and the worker message
  handler (self.onmessage);
* src/poc/src/runtime/worker/sandbox.js - the in-thread runSlot variant with
  its utility library, output validator (with the array-length ceiling),
  JSON round-trip copying and deepFreeze of inputs;
* src/unnamed/part_006 - the dispatcher: the module-level worker handle
  (ensureWorker) and the promise/timer based runSlot entry point.

Numbers that the JS code handles as IEEE doubles are modelled as rationals;
every arithmetic step the claims exercise is exact in doubles as well.
-/

namespace SlotSandbox

/-! ## AST and code validator of slotWorker.js (lines 9-90) -/

/-- Acorn-style AST nodes as consumed by the walker in validateSlot of
slotWorker.js.  The walker inspects the node type string, identifier names,
the callee of a new-expression and the property of a member access, and
recurses into every child node; all other node kinds are kept abstract as
`other` carrying their type string and child nodes. -/
inductive Ast where
  | ident (name : String)
  | member (obj : Ast) (prop : Ast)
  | newE (callee : Ast) (args : List Ast)
  | other (type : String) (children : List Ast)

/-- FORBIDDEN_NODE_TYPES of slotWorker.js lines 17-22. -/
def FORBIDDEN_NODE_TYPES : List String :=
  ["ImportDeclaration", "ImportExpression", "ExportNamedDeclaration",
   "ExportDefaultDeclaration", "WithStatement", "MetaProperty",
   "ImportAttribute", "DynamicImport"]

/-- BLACKLISTED_IDENTIFIERS of slotWorker.js lines 9-14. -/
def BLACKLISTED_IDENTIFIERS : List String :=
  ["eval", "Function", "constructor", "__proto__",
   "window", "document", "fetch", "XMLHttpRequest",
   "WebSocket", "importScripts", "self", "globalThis",
   "require", "module", "exports", "process"]

/-- The `type` field acorn puts on each node. -/
def nodeType : Ast → String
  | .ident _ => "Identifier"
  | .member _ _ => "MemberExpression"
  | .newE _ _ => "NewExpression"
  | .other t _ => t

/-- The checks walkNode (slotWorker.js lines 43-70) performs on one node,
in source order: forbidden node type, blacklisted identifier, new Function,
dangerous member property. -/
def localErrors (n : Ast) : List String :=
  (if FORBIDDEN_NODE_TYPES.contains (nodeType n) then
    ["Forbidden node type: " ++ nodeType n] else [])
  ++ (match n with
      | .ident name =>
        if BLACKLISTED_IDENTIFIERS.contains name then
          ["Blacklisted identifier: " ++ name] else []
      | _ => [])
  ++ (match n with
      | .newE (.ident c) _ =>
        if c = "Function" then ["new Function is not allowed"] else []
      | _ => [])
  ++ (match n with
      | .member _ (.ident p) =>
        if p = "__proto__" || p = "constructor" then
          ["Dangerous property access: " ++ p] else []
      | _ => [])

mutual

/-- Errors accumulated by recursively walking the AST
(walkNode, slotWorker.js lines 43-82). -/
def walkErrors : Ast → List String
  | .ident n => localErrors (.ident n)
  | .member o p => localErrors (.member o p) ++ walkErrors o ++ walkErrors p
  | .newE c args => localErrors (.newE c args) ++ walkErrors c ++ walkList args
  | .other t cs => localErrors (.other t cs) ++ walkList cs

/-- Walk a list of child nodes in order. -/
def walkList : List Ast → List String
  | [] => []
  | a :: rest => walkErrors a ++ walkList rest

end

/-- A ValidationReport: ok flag plus ordered violation messages. -/
structure Report where
  ok : Bool
  errors : List String
deriving DecidableEq

/-- Submitted source text, abstracted to what validateSlot looks at: whether
the regex return-check matches, and the outcome of acorn.parse (either the
AST or the parse-error message). -/
structure Code where
  hasReturnKw : Bool
  parsed : Except String Ast

/-- validateSlot of slotWorker.js lines 27-90: return-statement check, then
AST walk (or a parse-error diagnostic when acorn throws); violations
accumulate and ok holds iff no error was recorded. -/
def validateSlot (c : Code) : Report :=
  let returnErrs := if c.hasReturnKw then [] else ["Function must have a return statement"]
  let astErrs :=
    match c.parsed with
    | .ok ast => walkErrors ast
    | .error m => ["Parse error: " ++ m]
  let errors := returnErrs ++ astErrs
  { ok := errors.isEmpty, errors := errors }

/-- An occurrence, at any nesting depth, of the identifier `b` in the AST. -/
inductive ContainsIdent (b : String) : Ast → Prop where
  | here : ContainsIdent b (.ident b)
  | memberObj {o p : Ast} : ContainsIdent b o → ContainsIdent b (.member o p)
  | memberProp {o p : Ast} : ContainsIdent b p → ContainsIdent b (.member o p)
  | newCallee {c : Ast} {args : List Ast} :
      ContainsIdent b c → ContainsIdent b (.newE c args)
  | newArg {c : Ast} {args : List Ast} {a : Ast} :
      a ∈ args → ContainsIdent b a → ContainsIdent b (.newE c args)
  | otherChild {t : String} {cs : List Ast} {a : Ast} :
      a ∈ cs → ContainsIdent b a → ContainsIdent b (.other t cs)

theorem walkErrors_subset_walkList {a : Ast} {l : List Ast} (hmem : a ∈ l)
    {x : String} (hx : x ∈ walkErrors a) : x ∈ walkList l := by
  induction l with
  | nil => cases hmem
  | cons hd tl ih =>
    rw [walkList]
    rcases List.mem_cons.mp hmem with h | h
    · exact List.mem_append_left _ (h ▸ hx)
    · exact List.mem_append_right _ (ih h)

theorem blacklisted_mem_walkErrors {b : String}
    (hb : b ∈ BLACKLISTED_IDENTIFIERS) {ast : Ast} (hc : ContainsIdent b ast) :
    ("Blacklisted identifier: " ++ b) ∈ walkErrors ast := by
  induction hc with
  | here =>
    rw [walkErrors, localErrors]
    simp [hb]
  | memberObj _ ih => rw [walkErrors]; simp [List.mem_append, ih]
  | memberProp _ ih => rw [walkErrors]; simp [List.mem_append, ih]
  | newCallee _ ih => rw [walkErrors]; simp [List.mem_append, ih]
  | newArg hmem _ ih =>
    rw [walkErrors]
    simp only [List.append_assoc, List.mem_append]
    exact Or.inr (Or.inr (walkErrors_subset_walkList hmem ih))
  | otherChild hmem _ ih =>
    rw [walkErrors]
    simp only [List.mem_append]
    exact Or.inr (walkErrors_subset_walkList hmem ih)

theorem validateSlot_not_ok_of_contains {b : String}
    (hb : b ∈ BLACKLISTED_IDENTIFIERS) {ast : Ast} (hc : ContainsIdent b ast)
    {c : Code} (hp : c.parsed = Except.ok ast) :
    (validateSlot c).ok = false ∧
      ("Blacklisted identifier: " ++ b) ∈ (validateSlot c).errors := by
  have hmem : ("Blacklisted identifier: " ++ b) ∈ (validateSlot c).errors := by
    rw [validateSlot]
    simp only [hp]
    exact List.mem_append_right _ (blacklisted_mem_walkErrors hb hc)
  refine ⟨?_, hmem⟩
  have hne : (validateSlot c).errors ≠ [] := by
    intro h
    rw [h] at hmem
    cases hmem
  have hok : (validateSlot c).ok = (validateSlot c).errors.isEmpty := rfl
  rw [hok, List.isEmpty_eq_false]
  exact hne

/-! ## JSON-like runtime values and the output validators -/

/-- A JSON-serializable JS value, as produced by a slot. -/
inductive Value where
  | vNull
  | vBool (b : Bool)
  | vNum (q : ℚ)
  | vStr (s : String)
  | vArr (elems : List Value)
  | vObj (fields : List (String × Value))

/-- The JS typeof operator on these values; note typeof null and typeof of an
array are both the string object. -/
def typeofV : Value → String
  | .vNull => "object"
  | .vBool _ => "boolean"
  | .vNum _ => "number"
  | .vStr _ => "string"
  | .vArr _ => "object"
  | .vObj _ => "object"

/-- The JS `in` operator: defined on objects (own keys) and arrays (index
keys), a TypeError on every other operand - in particular on null. -/
def jsIn (k : String) : Value → Except String Bool
  | .vObj fields => .ok (fields.any (fun f => f.1 = k))
  | .vArr elems => .ok ((List.range elems.length).any (fun i => toString i = k))
  | v => .error ("Cannot use in operator to search for " ++ k ++ " in " ++ typeofV v)

/-- Length of the JS decimal rendering of a number: sign, the decimal digit
count of the integer part (Nat.log 10 n + 1 digits), and a separator plus
digits when a fractional part exists.  The 1 MiB ceiling check only needs
the order of magnitude of the serialized size; the values the claims
exercise are small integers, rendered exactly. -/
def numLen (q : ℚ) : ℕ :=
  (if q < 0 then 1 else 0) + (Nat.log 10 q.num.natAbs + 1) +
    (if q.den = 1 then 0 else 1 + (Nat.log 10 q.den + 1))

mutual

/-- Length of JSON.stringify of a value: brackets, separators, quotes and the
payload characters. -/
def serLen : Value → ℕ
  | .vNull => 4
  | .vBool b => if b then 4 else 5
  | .vNum q => numLen q
  | .vStr s => s.length + 2
  | .vArr elems => 2 + serLenList elems + (elems.length - 1)
  | .vObj fields => 2 + serLenFields fields + (fields.length - 1)

/-- Summed serialized length of array elements. -/
def serLenList : List Value → ℕ
  | [] => 0
  | v :: rest => serLen v + serLenList rest

/-- Summed serialized length of object entries (quoted key, colon, value). -/
def serLenFields : List (String × Value) → ℕ
  | [] => 0
  | kv :: rest => kv.1.length + 3 + serLen kv.2 + serLenFields rest

end

/-- One entry of the properties map of an output schema. -/
structure PropDef where
  optional : Bool
deriving DecidableEq

/-- A caller-supplied output schema: optional typeof constraint and optional
ordered properties map. -/
structure Schema where
  type : Option String
  properties : Option (List (String × PropDef))

/-- The required-properties loop shared by every validateOutput copy: for
each declared key the JS code evaluates `k in result` first (which throws a
TypeError when result is null) and records a violation when the key is
missing and not optional. -/
def checkProps (result : Value) : List (String × PropDef) → Except String (List String)
  | [] => .ok []
  | kd :: rest =>
    match jsIn kd.1 result with
    | .error m => .error m
    | .ok present =>
      match checkProps result rest with
      | .error m => .error m
      | .ok tail =>
        .ok (if !present && !kd.2.optional then
              ("Missing required output property: " ++ kd.1) :: tail
             else tail)

/-- validateOutput of slotWorker.js lines 144-170: typeof check, required
properties (gated on typeof result being object), serialized size ceiling.
There is no array-length check in this copy.  The Except layer records that
the properties loop can throw. -/
def validateOutputWorker (result : Value) (schema : Option Schema) : Except String Report :=
  match schema with
  | none => .ok { ok := true, errors := [] }
  | some s =>
    let typeErrs :=
      match s.type with
      | some t => if typeofV result ≠ t then ["Expected output type " ++ t] else []
      | none => []
    let propsRes :=
      match s.properties with
      | some props =>
        if typeofV result = "object" then checkProps result props else .ok []
      | none => .ok []
    match propsRes with
    | .error m => .error m
    | .ok propErrs =>
      let sizeErrs :=
        if serLen result > 1024 * 1024 then ["Output size too large (max 1MB)"] else []
      let errors := typeErrs ++ propErrs ++ sizeErrs
      .ok { ok := errors.isEmpty, errors := errors }

/-- validateOutput of sandbox.js lines 312-346 (the copy in part_006 lines
249-283 is identical): typeof check with the got-suffix, required
properties, the 50000-element array ceiling, then the serialized size
ceiling. -/
def validateOutputSandbox (result : Value) (schema : Option Schema) : Except String Report :=
  match schema with
  | none => .ok { ok := true, errors := [] }
  | some s =>
    let typeErrs :=
      match s.type with
      | some t =>
        if typeofV result ≠ t then
          ["Expected output type " ++ t ++ ", got " ++ typeofV result] else []
      | none => []
    let propsRes :=
      match s.properties with
      | some props =>
        if typeofV result = "object" then checkProps result props else .ok []
      | none => .ok []
    match propsRes with
    | .error m => .error m
    | .ok propErrs =>
      let arrErrs :=
        match result with
        | .vArr elems =>
          if elems.length > 50000 then ["Output array too large (max 50000 items)"] else []
        | _ => []
      let sizeErrs :=
        if serLen result > 1024 * 1024 then ["Output size too large (max 1MB)"] else []
      let errors := typeErrs ++ propErrs ++ arrErrs ++ sizeErrs
      .ok { ok := errors.isEmpty, errors := errors }

/-! ## SlotResult and the worker message handler -/

/-- The response envelope: success with data and the measured time field
(named exec_time_ms in the code), or a failure with code, message, phase. -/
inductive SlotResult where
  | success (data : Value) (exec_time_ms : ℚ)
  | failure (code : String) (message : String) (phase : String)

/-- errors.join of the JS code. -/
def joinSemi (l : List String) : String := String.intercalate ("; ") l

/-- The message posted to the worker (slotWorker.js line 176). -/
structure WorkerRequest where
  code : Code
  input : Value
  params : Value
  outputSchema : Option Schema
  timeout : Option ℕ

/-- The worker timer delay, slotWorker.js line 242: timeout ?? 1000.  The
timer callback merely throws from a later macrotask, after the synchronous
execution already finished, so it never interrupts the slot and does not
influence the posted result. -/
def workerTimerDelay (timeout : Option ℕ) : ℕ := timeout.getD 1000

/-- self.onmessage of slotWorker.js lines 175-283.  evalRes is the outcome of
compiling and synchronously calling the wrapped slot (an Except error is a
thrown exception carrying its message); elapsed models the performance.now
difference.  Validation failure returns before anything executes; the
try/catch around compilation, execution and output validation converts any
throw into EXECUTION_ERROR in the execution phase.  The handler itself is a
total function: no exception escapes it. -/
def handleMessage (req : WorkerRequest) (evalRes : Except String Value)
    (elapsed : ℚ) : SlotResult :=
  let v := validateSlot req.code
  if !v.ok then
    .failure ("VALIDATION_ERROR") (joinSemi v.errors) ("validation")
  else
    match evalRes with
    | .error m => .failure ("EXECUTION_ERROR") m ("execution")
    | .ok result =>
      match validateOutputWorker result req.outputSchema with
      | .error m => .failure ("EXECUTION_ERROR") m ("execution")
      | .ok o =>
        if !o.ok then
          .failure ("OUTPUT_VALIDATION_ERROR") (joinSemi o.errors) ("output")
        else
          .success result elapsed

/-! ## The in-thread runSlot of sandbox.js (lines 170-292) -/

/-- The timeout sandbox.js line 172 uses: options.timeout || 5000.  The JS
or-operator falls back on every falsy value, so an explicit 0 is also
replaced by 5000. -/
def sandboxTimeoutUsed (o : Option ℕ) : ℕ :=
  match o with
  | none => 5000
  | some 0 => 5000
  | some t => t

/-- Control flow of runSlot in sandbox.js.  v is the report of the regex
validateSlot on the source text (no claim depends on its internals);
roundTrip models JSON.parse(JSON.stringify(.)) of input and params, which
throws on circular input; compile models the Function constructor, which
throws a SyntaxError on code the regex gate let through; evalRes models the
synchronous call of the compiled slot.  A throw in roundTrip or compile is
caught by the outer try and reported as SETUP_ERROR in a setup phase; a
throw in evaluation or inside validateOutput is caught by the promise catch
and reported as EXECUTION_ERROR in the execution phase.  The setTimeout
armed inside the promise cannot fire before the synchronous executor
returns, so it never produces a result and is not part of the outcome. -/
def sandboxRunSlot (v : Report) (roundTrip : Except String Unit)
    (compile : Except String Unit) (evalRes : Except String Value)
    (schema : Option Schema) (elapsed : ℚ) : SlotResult :=
  if !v.ok then
    .failure ("VALIDATION_ERROR") (joinSemi v.errors) ("validation")
  else
    match roundTrip with
    | .error m => .failure ("SETUP_ERROR") m ("setup")
    | .ok _ =>
      match compile with
      | .error m => .failure ("SETUP_ERROR") m ("setup")
      | .ok _ =>
        match evalRes with
        | .error m => .failure ("EXECUTION_ERROR") m ("execution")
        | .ok result =>
          match validateOutputSandbox result schema with
          | .error m => .failure ("EXECUTION_ERROR") m ("execution")
          | .ok o =>
            if !o.ok then
              .failure ("OUTPUT_VALIDATION_ERROR") (joinSemi o.errors) ("output")
            else
              .success result elapsed

/-! ## The dispatcher of part_006 (lines 165-229) -/

/-- Dispatcher state: the module-level mutable worker handle and a counter
producing identities for newly constructed workers. -/
structure DState where
  worker : Option ℕ
  nextId : ℕ
deriving DecidableEq

/-- ensureWorker, part_006 lines 167-172: reuse the cached worker or create
a fresh one and cache it. -/
def ensureWorker (s : DState) : ℕ × DState :=
  match s.worker with
  | some w => (w, s)
  | none => (s.nextId, { worker := some s.nextId, nextId := s.nextId + 1 })

/-- The timeout the dispatcher resolves, part_006 line 179: options.timeout
?? 1000. -/
def dispatchTimeoutUsed (o : Option ℕ) : ℕ := o.getD 1000

/-- What the dispatcher observes from the worker: either a posted result
message or an error event with its message. -/
inductive WEvent where
  | msg (r : SlotResult)
  | err (m : String)

/-- JS string or-operator: the fallback replaces the empty (falsy) string. -/
def jsOrString (m fallback : String) : String := if m = "" then fallback else m

/-- runSlot of part_006 lines 177-229.  ev is the first worker event and the
instant (ms after call start) it arrives, none when the worker never
answers.  The dispatcher timer fires at timeout + 50; an event arriving
before that wins the race and clears the timer, otherwise the timer
terminates the worker, clears the module-level handle and resolves
EXECUTION_TIMEOUT.  Returns the resolved result, the dispatcher state after
the call and whether worker.terminate was invoked. -/
def dispatchRunSlot (s : DState) (timeoutOpt : Option ℕ)
    (ev : Option (ℕ × WEvent)) : SlotResult × DState × Bool :=
  let ws := ensureWorker s
  let deadline := dispatchTimeoutUsed timeoutOpt + 50
  let timeoutRes : SlotResult × DState × Bool :=
    (.failure ("EXECUTION_TIMEOUT") ("Execution timeout") ("execution"),
     { ws.2 with worker := none }, true)
  match ev with
  | some te =>
    if te.1 < deadline then
      match te.2 with
      | .msg r => (r, ws.2, false)
      | .err m =>
        (.failure ("WORKER_ERROR") (jsOrString m ("Worker execution failed")) ("execution"),
         { ws.2 with worker := none }, false)
    else timeoutRes
  | none => timeoutRes

/-! ## The deterministic utility library

createUtils of slotWorker.js lines 95-139 and createSafeEnvironment of
sandbox.js lines 77-165 (identical in part_006 lines 72-160).  Namespaces
WorkerUtils and SandboxUtils hold the two copies. -/

namespace WorkerUtils

/-- mean of slotWorker.js line 98: a.length ? a.reduce((s,v) => s+v, 0) /
a.length : 0. -/
def mean (a : List ℚ) : ℚ :=
  if a.length = 0 then 0 else a.foldl (fun s v => s + v) 0 / (a.length : ℚ)

/-- stdev of slotWorker.js lines 107-110: sqrt of the mean of squared
deviations. -/
noncomputable def stdev (a : List ℚ) : ℝ :=
  Real.sqrt ((mean (a.map (fun v => (v - mean a) * (v - mean a))) : ℚ) : ℝ)

/-- Ascending numeric sort, the (x, y) => x - y comparator. -/
def sortAsc (a : List ℚ) : List ℚ := a.mergeSort (fun x y => decide (x ≤ y))

/-- Array indexing b[i] for the in-range indices quantile uses; the
out-of-range accesses (only reachable with an empty array or q outside
[0,1]) would give NaN in JS and are mapped to 0 here. -/
def getIdx (b : List ℚ) (i : ℤ) : ℚ :=
  if h : 0 ≤ i ∧ i.toNat < b.length then b.get ⟨i.toNat, h.2⟩ else 0

/-- quantile of slotWorker.js lines 114-121 (same text in sandbox.js lines
106-113): linear interpolation between the order statistics at floor and
ceil of q * (length - 1); i % 1 equals i - floor i for the nonnegative
indices that arise for q in [0, 1]. -/
def quantile (a : List ℚ) (q : ℚ) : ℚ :=
  let b := sortAsc a
  let i : ℚ := q * ((b.length : ℚ) - 1)
  let l : ℤ := ⌊i⌋
  let u : ℤ := ⌈i⌉
  let w : ℚ := i - (⌊i⌋ : ℚ)
  getIdx b l * (1 - w) + getIdx b u * w

end WorkerUtils

namespace SandboxUtils

/-- mean of sandbox.js lines 81-84: empty (or missing) arrays give 0. -/
def mean (a : List ℚ) : ℚ :=
  if a.length = 0 then 0 else a.foldl (fun s v => s + v) 0 / (a.length : ℚ)

/-- stdev of sandbox.js lines 93-98: early 0 on the empty array, otherwise
sqrt of reduce-computed variance. -/
noncomputable def stdev (a : List ℚ) : ℝ :=
  if a.length = 0 then 0
  else Real.sqrt (((a.foldl (fun s v => s + (v - mean a) * (v - mean a)) 0) /
    (a.length : ℚ) : ℚ) : ℝ)

/-- quantile of sandbox.js lines 106-113, textually the interpolation of the
worker copy. -/
def quantile (a : List ℚ) (q : ℚ) : ℚ :=
  let b := WorkerUtils.sortAsc a
  let i : ℚ := q * ((b.length : ℚ) - 1)
  let l : ℤ := ⌊i⌋
  let u : ℤ := ⌈i⌉
  let w : ℚ := i - (⌊i⌋ : ℚ)
  WorkerUtils.getIdx b l * (1 - w) + WorkerUtils.getIdx b u * w

end SandboxUtils

/-! ## The fixed clock and the seeded generator -/

/-- Gregorian leap years. -/
def isLeap (y : ℕ) : Bool := (y % 4 = 0 && y % 100 ≠ 0) || y % 400 = 0

/-- Month lengths for the zero-based JS month index. -/
def daysInMonth (y m : ℕ) : ℕ :=
  match m with
  | 0 => 31
  | 1 => if isLeap y then 29 else 28
  | 2 => 31
  | 3 => 30
  | 4 => 31
  | 5 => 30
  | 6 => 31
  | 7 => 31
  | 8 => 30
  | 9 => 31
  | 10 => 30
  | _ => 31

/-- Days from 1970-01-01 to the first day of year y. -/
def daysBeforeYear (y : ℕ) : ℕ :=
  (List.range (y - 1970)).foldl
    (fun acc k => acc + if isLeap (1970 + k) then 366 else 365) 0

/-- Days from the first of the year to the first of month m (0-based). -/
def daysBeforeMonth (y m : ℕ) : ℕ :=
  (List.range m).foldl (fun acc k => acc + daysInMonth y k) 0

/-- Date.UTC(year, monthIndex, day, hours, minutes, seconds) in milliseconds
since the epoch, for the post-1970 instants the code uses. -/
def dateUTC (y m d h mi s : ℕ) : ℕ :=
  ((daysBeforeYear y + daysBeforeMonth y m + (d - 1)) * 86400 +
    h * 3600 + mi * 60 + s) * 1000

/-- The hard-coded instant utils.now returns: Date.UTC(2025, 8, 13, 12, 0, 0)
in every copy of the library. -/
def nowMs : ℕ := dateUTC 2025 8 13 12 0 0

/-- One step of the linear congruential generator of utils.random:
s = (s * 9301 + 49297) % 233280. -/
def lcgNext (s : ℕ) : ℕ := (s * 9301 + 49297) % 233280

/-- The generator seed after k calls, starting from the fixed seed 42. -/
def seedAfter (k : ℕ) : ℕ := lcgNext^[k] 42

/-- The value returned by the k-th random() call (k counted from 1) in a
fresh worker: the advanced seed divided by 233280. -/
def randomVal (k : ℕ) : ℚ := (seedAfter k : ℚ) / 233280

/-- A call into the utility namespace, for the statefulness analysis: the
generator seed is the only mutable state the library closes over. -/
inductive UCall where
  | uNow
  | uRandom
  | uMean (a : List ℚ)

/-- Execute one utils call against the current seed: now reads the hard-coded
constant and leaves the seed alone; random advances the seed and returns the
scaled value; mean is pure. -/
def stepCall (seed : ℕ) : UCall → ℚ × ℕ
  | .uNow => ((nowMs : ℚ), seed)
  | .uRandom => ((lcgNext seed : ℚ) / 233280, lcgNext seed)
  | .uMean a => (WorkerUtils.mean a, seed)

/-- Run a sequence of utils calls in one worker, threading the seed. -/
def runCalls (seed : ℕ) : List UCall → List ℚ
  | [] => []
  | c :: rest => (stepCall seed c).1 :: runCalls (stepCall seed c).2 rest

/-- Pure specification of a run which started after k random calls: each
result is a function of the call and of how many random calls preceded it
alone, with now pinned to the constant instant. -/
def specRun (k : ℕ) : List UCall → List ℚ
  | [] => []
  | .uNow :: rest => (nowMs : ℚ) :: specRun k rest
  | .uRandom :: rest => randomVal (k + 1) :: specRun (k + 1) rest
  | .uMean a :: rest => WorkerUtils.mean a :: specRun k rest

/-! ## Claim theorems -/

/-- The identifiers claim C1 enumerates.  The last entry of the claim list,
the prototype-escape accessor constructor.constructor, is covered through the
identifier constructor: every occurrence of constructor.constructor contains
the identifier constructor (twice, as member properties), and the walker
flags that identifier. -/
def CLAIM_C1_IDENTIFIERS : List String :=
  ["window", "document", "globalThis", "self",
   "fetch", "XMLHttpRequest", "WebSocket", "importScripts",
   "eval", "Function",
   "require", "module", "exports", "process",
   "__proto__", "constructor"]

theorem claim_ids_blacklisted :
    ∀ b ∈ CLAIM_C1_IDENTIFIERS, b ∈ BLACKLISTED_IDENTIFIERS := by decide

/-- C1: code containing an occurrence, at any nesting depth, of one of the
blacklisted identifiers is rejected by validateSlot of slotWorker.js with a
violation naming that identifier, and the worker message handler answers
VALIDATION_ERROR in the validation phase without reaching execution: its
result is the same for every possible evaluation outcome. -/
theorem c1_blacklisted_identifier_rejected (b : String)
    (hb : b ∈ CLAIM_C1_IDENTIFIERS) (ast : Ast) (hc : ContainsIdent b ast)
    (req : WorkerRequest) (hreq : req.code.parsed = Except.ok ast) :
    (validateSlot req.code).ok = false ∧
    ("Blacklisted identifier: " ++ b) ∈ (validateSlot req.code).errors ∧
    ∀ (evalRes : Except String Value) (elapsed : ℚ),
      handleMessage req evalRes elapsed =
        SlotResult.failure ("VALIDATION_ERROR")
          (joinSemi (validateSlot req.code).errors) ("validation") := by
  obtain ⟨hok, hmem⟩ :=
    validateSlot_not_ok_of_contains (claim_ids_blacklisted b hb) hc hreq
  refine ⟨hok, hmem, ?_⟩
  intro evalRes elapsed
  rw [handleMessage.eq_def]
  simp only [hok, Bool.not_false, if_pos]

/-- The submitted code of the C1 witness: the bare identifier window. -/
def c1Code : Code := { hasReturnKw := true, parsed := Except.ok (Ast.ident ("window")) }

/-- The worker request of the C1 witness. -/
def c1Req : WorkerRequest :=
  { code := c1Code, input := Value.vNull, params := Value.vNull,
    outputSchema := none, timeout := none }

/-- Witness for C1 at the concrete blacklisted identifier window occurring as
the whole program: validation fails naming window and the handler ignores
the (successful) evaluation outcome. -/
theorem c1_witness :
    ("window" ∈ CLAIM_C1_IDENTIFIERS) ∧
    ((validateSlot c1Req.code).ok = false ∧
      ("Blacklisted identifier: " ++ "window") ∈ (validateSlot c1Req.code).errors ∧
      ∀ (evalRes : Except String Value) (elapsed : ℚ),
        handleMessage c1Req evalRes elapsed =
          SlotResult.failure ("VALIDATION_ERROR")
            (joinSemi (validateSlot c1Req.code).errors) ("validation")) :=
  ⟨by decide,
   c1_blacklisted_identifier_rejected ("window") (by decide)
     (Ast.ident ("window")) ContainsIdent.here c1Req rfl⟩

/-- C3: an exception thrown while evaluating the compiled slot code (modelled
as an error outcome of the evaluation, carrying the exception text) is
converted at the host boundary into EXECUTION_ERROR in the execution phase,
both by the worker message handler and by the in-thread sandbox.js runSlot.
Both handlers are total functions of the evaluation outcome, so no exception
propagates to the caller. -/
theorem c3_execution_exception_contained (req : WorkerRequest) (m : String)
    (hok : (validateSlot req.code).ok = true) (elapsed : ℚ)
    (v : Report) (hv : v.ok = true) (schema : Option Schema) :
    handleMessage req (Except.error m) elapsed =
      SlotResult.failure ("EXECUTION_ERROR") m ("execution") ∧
    sandboxRunSlot v (Except.ok ()) (Except.ok ()) (Except.error m) schema elapsed =
      SlotResult.failure ("EXECUTION_ERROR") m ("execution") := by
  constructor
  · rw [handleMessage.eq_def]
    simp only [hok, Bool.not_true, Bool.false_eq_true, if_false]
  · rw [sandboxRunSlot.eq_def]
    simp only [hv, Bool.not_true, Bool.false_eq_true, if_false]

/-- A benign program: has a return and a single non-blacklisted node, so the
AST validator accepts it. -/
def okCode : Code := { hasReturnKw := true, parsed := Except.ok (Ast.other ("Program") []) }

/-- A benign worker request used by witnesses, carrying schema sch. -/
def okReq (sch : Option Schema) : WorkerRequest :=
  { code := okCode, input := Value.vNull, params := Value.vNull,
    outputSchema := sch, timeout := none }

/-- Witness for C3: a concrete valid request whose evaluation throws boom is
resolved as EXECUTION_ERROR boom in the execution phase by both hosts. -/
theorem c3_witness :
    handleMessage (okReq none) (Except.error ("boom")) 1 =
      SlotResult.failure ("EXECUTION_ERROR") ("boom") ("execution") ∧
    sandboxRunSlot { ok := true, errors := [] } (Except.ok ()) (Except.ok ())
      (Except.error ("boom")) none 1 =
      SlotResult.failure ("EXECUTION_ERROR") ("boom") ("execution") :=
  c3_execution_exception_contained (okReq none) ("boom")
    (by simp [okReq, okCode, validateSlot, walkErrors, localErrors,
      FORBIDDEN_NODE_TYPES, walkList, nodeType]) 1
    { ok := true, errors := [] } rfl none

theorem checkProps_null_cons (kd : String × PropDef) (rest : List (String × PropDef)) :
    checkProps Value.vNull (kd :: rest) =
      Except.error ("Cannot use in operator to search for " ++ kd.1 ++ " in " ++
        typeofV Value.vNull) := rfl

/-- C9: a schema whose properties map declares a (non-optional) key makes
validateOutput throw a TypeError on the result null - typeof null is the
string object, so the in operator is applied to null - instead of returning
a report; since that call sits inside the execution try/catch (respectively
the promise catch), the worker handler reports the null result as
EXECUTION_ERROR in the execution phase rather than as an output-phase
failure. -/
theorem c9_null_output_reported_as_execution_error
    (sch : Schema) (props : List (String × PropDef))
    (hp : sch.properties = some props) (k : String) (d : PropDef)
    (hk : (k, d) ∈ props) (_hd : d.optional = false) :
    (∃ m, validateOutputWorker Value.vNull (some sch) = Except.error m) ∧
    (∃ m, validateOutputSandbox Value.vNull (some sch) = Except.error m) ∧
    ∀ (req : WorkerRequest) (elapsed : ℚ), req.outputSchema = some sch →
      (validateSlot req.code).ok = true →
      ∃ m, handleMessage req (Except.ok Value.vNull) elapsed =
        SlotResult.failure ("EXECUTION_ERROR") m ("execution") := by
  obtain ⟨kd0, rest, rfl⟩ : ∃ kd0 rest, props = kd0 :: rest := by
    cases props with
    | nil => cases hk
    | cons a l => exact ⟨a, l, rfl⟩
  have hcheck := checkProps_null_cons kd0 rest
  have hw : ∃ m, validateOutputWorker Value.vNull (some sch) = Except.error m := by
    refine ⟨("Cannot use in operator to search for " ++ kd0.1 ++ " in " ++
      typeofV Value.vNull), ?_⟩
    rw [validateOutputWorker.eq_def]
    simp only [hp, typeofV, reduceIte, hcheck]
  have hs : ∃ m, validateOutputSandbox Value.vNull (some sch) = Except.error m := by
    refine ⟨("Cannot use in operator to search for " ++ kd0.1 ++ " in " ++
      typeofV Value.vNull), ?_⟩
    rw [validateOutputSandbox.eq_def]
    simp only [hp, typeofV, reduceIte, hcheck]
  refine ⟨hw, hs, ?_⟩
  intro req elapsed hsch hok
  obtain ⟨m0, hm0⟩ := hw
  refine ⟨m0, ?_⟩
  rw [handleMessage.eq_def]
  simp only [hok, Bool.not_true, Bool.false_eq_true, if_false, hsch, hm0]

/-- The schema of the C9 witness: one required key named total. -/
def c9Schema : Schema := { type := none, properties := some [(("total" : String), { optional := false })] }

/-- Witness for C9: under the schema with required key total, both output
validators throw on a null result, and a benign request whose slot returns
null resolves as an execution-phase EXECUTION_ERROR. -/
theorem c9_witness :
    (∃ m, validateOutputWorker Value.vNull (some c9Schema) = Except.error m) ∧
    (∃ m, validateOutputSandbox Value.vNull (some c9Schema) = Except.error m) ∧
    ∀ (req : WorkerRequest) (elapsed : ℚ), req.outputSchema = some c9Schema →
      (validateSlot req.code).ok = true →
      ∃ m, handleMessage req (Except.ok Value.vNull) elapsed =
        SlotResult.failure ("EXECUTION_ERROR") m ("execution") :=
  c9_null_output_reported_as_execution_error c9Schema
    [(("total" : String), { optional := false })] rfl ("total")
    { optional := false } (by simp) rfl

theorem getIdx_singleton (x : ℚ) : WorkerUtils.getIdx [x] 0 = x := by
  simp [WorkerUtils.getIdx]

/-- C6: both copies of the utility library return 0 for the mean and the
standard deviation of the empty sequence, and for q in [0, 1] the quantile
of a one-element sequence is that element (the interpolation degenerates:
the index q * (length - 1) is 0, both order statistics are the sole
element).  In rationals every step is exact, as it is in doubles. -/
theorem c6_utils_edge_cases :
    WorkerUtils.mean [] = 0 ∧ SandboxUtils.mean [] = 0 ∧
    WorkerUtils.stdev [] = 0 ∧ SandboxUtils.stdev [] = 0 ∧
    ∀ (q : ℚ), 0 ≤ q → q ≤ 1 → ∀ (x : ℚ),
      WorkerUtils.quantile [x] q = x ∧ SandboxUtils.quantile [x] q = x := by
  refine ⟨by simp [WorkerUtils.mean], by simp [SandboxUtils.mean], ?_, ?_, ?_⟩
  · simp [WorkerUtils.stdev, WorkerUtils.mean]
  · simp [SandboxUtils.stdev]
  · intro q _hq0 _hq1 x
    constructor
    · simp [WorkerUtils.quantile, WorkerUtils.sortAsc, getIdx_singleton]
    · simp [SandboxUtils.quantile, WorkerUtils.sortAsc, getIdx_singleton]

/-- Witness for C6 at q = 1/2 and the one-element sequence [5]. -/
theorem c6_witness :
    ((0 : ℚ) ≤ 1 / 2) ∧ ((1 / 2 : ℚ) ≤ 1) ∧
    WorkerUtils.quantile [5] (1 / 2) = 5 ∧ SandboxUtils.quantile [5] (1 / 2) = 5 :=
  ⟨by norm_num, by norm_num,
   (c6_utils_edge_cases.2.2.2.2 (1 / 2) (by norm_num) (by norm_num) 5).1,
   (c6_utils_edge_cases.2.2.2.2 (1 / 2) (by norm_num) (by norm_num) 5).2⟩

theorem seedAfter_succ (k : ℕ) : seedAfter (k + 1) = lcgNext (seedAfter k) :=
  Function.iterate_succ_apply' lcgNext k 42

theorem runCalls_spec (cs : List UCall) :
    ∀ k, runCalls (seedAfter k) cs = specRun k cs := by
  induction cs with
  | nil => intro k; rfl
  | cons c rest ih =>
    intro k
    cases c with
    | uNow =>
      simp only [runCalls, specRun, stepCall]
      exact congrArg _ (ih k)
    | uRandom =>
      simp only [runCalls, specRun, stepCall, randomVal, seedAfter_succ]
      exact congrArg _ (ih (k + 1) ▸ congrArg (fun s => runCalls s rest) (seedAfter_succ k).symm)
    | uMean a =>
      simp only [runCalls, specRun, stepCall]
      exact congrArg _ (ih k)

/-- C7 counterexample: two random() calls - both with the same (empty)
argument list - inside one worker run observe different values, so the
claim that utils.random returns bit-identical output across calls with
fixed inputs fails: the generator is stateful. -/
theorem c7_counterexample :
    runCalls 42 [UCall.uRandom, UCall.uRandom] =
      [(206659 : ℚ) / 233280, (190736 : ℚ) / 233280] ∧
    ((206659 : ℚ) / 233280) ≠ ((190736 : ℚ) / 233280) := by
  constructor
  · simp only [runCalls, stepCall]
    norm_num [lcgNext]
  · norm_num

/-- C7 amended: utils.now reads no state and returns the one hard-coded
instant on every call in every worker; every other stateless utility is a
pure function of its arguments; and the k-th random() call of any worker
returns the fixed value determined by the seed 42 and k alone - identical
across workers and across interleavings with other utility calls - though
successive calls within one worker differ. -/
theorem c7_amended_determinism :
    (∀ seed : ℕ, stepCall seed UCall.uNow = ((nowMs : ℚ), seed)) ∧
    (∀ (seed : ℕ) (a : List ℚ), stepCall seed (UCall.uMean a) = (WorkerUtils.mean a, seed)) ∧
    (∀ cs : List UCall, runCalls 42 cs = specRun 0 cs) := by
  refine ⟨fun seed => rfl, fun seed a => rfl, fun cs => runCalls_spec cs 0⟩

/-- C8 counterexample: the in-thread runSlot of sandbox.js resolves the
timeout with options.timeout || 5000, so a request omitting timeoutMs runs
under a 5000 ms budget there, not 1000 ms. -/
theorem c8_counterexample :
    sandboxTimeoutUsed none = 5000 ∧ sandboxTimeoutUsed none ≠ 1000 :=
  ⟨rfl, by decide⟩

/-- C8 amended: the dispatcher of part_006 and the worker timer both default
a missing timeout to 1000 ms; the in-thread sandbox.js runSlot instead
defaults to 5000 ms, and its falsy-based test also maps an explicit 0 to
5000. -/
theorem c8_amended_defaults :
    dispatchTimeoutUsed none = 1000 ∧ workerTimerDelay none = 1000 ∧
    sandboxTimeoutUsed none = 5000 ∧ sandboxTimeoutUsed (some 0) = 5000 :=
  ⟨rfl, rfl, rfl, rfl⟩

/-- Dispatcher-state sanity: the cached worker identity was allocated by the
counter. -/
def DStateWF (s : DState) : Prop := ∀ w, s.worker = some w → w < s.nextId

/-- C2 counterexample: with timeoutMs = 1000 the dispatcher timer only fires
at 1050 ms, so a worker message arriving at 1001 ms - after timeoutMs, when
the call is still unresolved - wins the race: the call resolves with the
worker message (not EXECUTION_TIMEOUT), the worker is not terminated and
the module-level handle still caches it for reuse. -/
theorem c2_counterexample :
    (1000 : ℕ) < 1001 ∧
    dispatchRunSlot { worker := none, nextId := 0 } (some 1000)
        (some (1001, WEvent.msg (SlotResult.success Value.vNull 7))) =
      (SlotResult.success Value.vNull 7, { worker := some 0, nextId := 1 }, false) ∧
    (∀ c m p, SlotResult.success Value.vNull 7 ≠ SlotResult.failure c m p) :=
  ⟨by decide, rfl, fun c m p h => SlotResult.noConfusion h⟩

/-- C2 amended: when no worker event arrives before timeoutMs + 50 (the
dispatcher timer adds a 50 ms grace period to the requested timeout), the
dispatcher terminates the worker, resolves EXECUTION_TIMEOUT in the
execution phase and clears the module-level handle, so the next call
constructs a fresh worker: the terminated worker identity is never reused. -/
theorem c2_amended_timeout (s : DState) (hs : DStateWF s) (timeoutOpt : Option ℕ)
    (ev : Option (ℕ × WEvent))
    (hlate : ∀ t e, ev = some (t, e) → dispatchTimeoutUsed timeoutOpt + 50 ≤ t) :
    (dispatchRunSlot s timeoutOpt ev).1 =
      SlotResult.failure ("EXECUTION_TIMEOUT") ("Execution timeout") ("execution") ∧
    (dispatchRunSlot s timeoutOpt ev).2.1.worker = none ∧
    (dispatchRunSlot s timeoutOpt ev).2.2 = true ∧
    (ensureWorker (dispatchRunSlot s timeoutOpt ev).2.1).1 ≠ (ensureWorker s).1 ∧
    DStateWF (ensureWorker (dispatchRunSlot s timeoutOpt ev).2.1).2 := by
  have hres : dispatchRunSlot s timeoutOpt ev =
      (SlotResult.failure ("EXECUTION_TIMEOUT") ("Execution timeout") ("execution"),
       { (ensureWorker s).2 with worker := none }, true) := by
    cases ev with
    | none => rfl
    | some te =>
      have h50 := hlate te.1 te.2 (by rw [Prod.mk.eta])
      rw [dispatchRunSlot.eq_def]
      simp only [if_neg (not_lt.mpr h50)]
  rw [hres]
  refine ⟨rfl, rfl, rfl, ?_, ?_⟩
  · show ({ (ensureWorker s).2 with worker := none } : DState).nextId ≠ (ensureWorker s).1
    cases hsw : s.worker with
    | some w =>
      have hew : ensureWorker s = (w, s) := by rw [ensureWorker.eq_def, hsw]
      rw [hew]
      exact fun h => absurd (h ▸ hs w hsw) (lt_irrefl _)
    | none =>
      have hew : ensureWorker s =
          (s.nextId, { worker := some s.nextId, nextId := s.nextId + 1 }) := by
        rw [ensureWorker.eq_def, hsw]
      rw [hew]
      exact Nat.succ_ne_self s.nextId
  · intro w hw
    have : ({ (ensureWorker s).2 with worker := none } : DState).nextId = w :=
      Option.some.inj hw
    rw [← this]
    exact Nat.lt_succ_self _


/-! ## Error taxonomy (C5) -/

/-- The stable error codes of section 6 of the spec. -/
def KNOWN_CODES : List String :=
  ["VALIDATION_ERROR", "EXECUTION_ERROR", "EXECUTION_TIMEOUT",
   "OUTPUT_VALIDATION_ERROR", "WORKER_ERROR"]

/-- The failure phases of the SlotResult union. -/
def KNOWN_PHASES : List String := ["validation", "execution", "output"]

/-- A result drawn from the documented discriminated union: success carries
data and a time, a failure carries one of the five codes and one of the
three phases. -/
def WellFormedResult (r : SlotResult) : Prop :=
  match r with
  | .success _ _ => True
  | .failure c _ p => c ∈ KNOWN_CODES ∧ p ∈ KNOWN_PHASES

/-- The union as the in-thread sandbox.js actually produces it: additionally
SETUP_ERROR in a setup phase, from its outer try/catch. -/
def WellFormedSandboxResult (r : SlotResult) : Prop :=
  match r with
  | .success _ _ => True
  | .failure c _ p =>
    (c ∈ KNOWN_CODES ∧ p ∈ KNOWN_PHASES) ∨ (c = "SETUP_ERROR" ∧ p = "setup")

/-- C5 counterexample: valid-looking code whose compilation throws (the regex
validator of sandbox.js does not parse, so e.g. `return )(` reaches the
Function constructor) is resolved by the in-thread runSlot with the code
SETUP_ERROR and the phase setup - both outside the documented
enumerations. -/
theorem c5_counterexample :
    sandboxRunSlot { ok := true, errors := [] } (Except.ok ())
        (Except.error ("Unexpected token")) (Except.ok Value.vNull) none 0 =
      SlotResult.failure ("SETUP_ERROR") ("Unexpected token") ("setup") ∧
    ("SETUP_ERROR" ∉ KNOWN_CODES) ∧ ("setup" ∉ KNOWN_PHASES) :=
  ⟨rfl, by decide, by decide⟩

/-- C5 amended: every result of the worker message handler and of the
dispatcher (beyond the worker message it forwards verbatim) lies in the
documented union - codes among the five stable strings, phases among
validation, execution, output - and every result of the in-thread
sandbox.js runSlot lies in the union extended by its undocumented
SETUP_ERROR/setup case. -/
theorem c5_amended_taxonomy :
    (∀ (req : WorkerRequest) (evalRes : Except String Value) (elapsed : ℚ),
      WellFormedResult (handleMessage req evalRes elapsed)) ∧
    (∀ (v : Report) (rt cp : Except String Unit) (evalRes : Except String Value)
      (schema : Option Schema) (elapsed : ℚ),
      WellFormedSandboxResult (sandboxRunSlot v rt cp evalRes schema elapsed)) ∧
    (∀ (s : DState) (timeoutOpt : Option ℕ) (ev : Option (ℕ × WEvent)),
      (∃ t r, ev = some (t, WEvent.msg r) ∧ (dispatchRunSlot s timeoutOpt ev).1 = r) ∨
      WellFormedResult (dispatchRunSlot s timeoutOpt ev).1) := by
  refine ⟨?_, ?_, ?_⟩
  · intro req evalRes elapsed
    rw [handleMessage.eq_def]
    dsimp only
    repeat' split
    all_goals trivial
  · intro v rt cp evalRes schema elapsed
    rw [sandboxRunSlot.eq_def]
    repeat' split
    all_goals first
      | trivial
      | exact Or.inl ⟨by decide, by decide⟩
      | exact Or.inr ⟨rfl, rfl⟩
  · intro s timeoutOpt ev
    cases ev with
    | none =>
      right
      rw [dispatchRunSlot.eq_def]
      exact ⟨by decide, by decide⟩
    | some te =>
      obtain ⟨t, e⟩ := te
      by_cases h : t < dispatchTimeoutUsed timeoutOpt + 50
      · cases e with
        | msg r =>
          left
          refine ⟨t, r, rfl, ?_⟩
          rw [dispatchRunSlot.eq_def]
          simp only [if_pos h]
        | err m =>
          right
          rw [dispatchRunSlot.eq_def]
          simp only [if_pos h]
          exact ⟨by decide, by decide⟩
      · right
        rw [dispatchRunSlot.eq_def]
        simp only [if_neg h]
        exact ⟨by decide, by decide⟩

/-! ## The missing array-length ceiling (C4) -/

/-- The failing output of C4: an array of 50001 zeros, roughly 100 kB when
serialized. -/
def bigArray : Value := Value.vArr (List.replicate 50001 (Value.vNum 0))

/-- The schema the C4 run supplies: an object-typed result, no properties
map. -/
def c4Schema : Schema := { type := some ("object"), properties := none }

theorem numLen_zero : numLen 0 = 1 := by simp [numLen]

theorem serLenList_replicate_zero (n : ℕ) :
    serLenList (List.replicate n (Value.vNum 0)) = n := by
  induction n with
  | zero => rfl
  | succ k ih =>
    rw [List.replicate_succ, serLenList, ih, serLen, numLen_zero]
    omega

theorem serLen_bigArray : serLen bigArray = 100003 := by
  rw [bigArray, serLen, serLenList_replicate_zero, List.length_replicate]

/-- C4: the worker output validator (slotWorker.js) has no array-length
check, so the 50001-element array - serialized well under 1 MiB - passes
its validation, and a benign request whose slot returns it succeeds through
the worker pipeline; the sandbox.js copy of validateOutput does reject the
same value for length.  The spec and its test scenarios require the
OUTPUT_VALIDATION_ERROR for length, so the worker copy is the slip. -/
theorem c4_worker_output_validator_misses_length :
    validateOutputWorker bigArray (some c4Schema) =
      Except.ok { ok := true, errors := [] } ∧
    validateOutputSandbox bigArray (some c4Schema) =
      Except.ok { ok := false
                  errors := ["Output array too large (max 50000 items)"] } ∧
    handleMessage (okReq (some c4Schema)) (Except.ok bigArray) 3 =
      SlotResult.success bigArray 3 := by
  have hlen : (List.replicate 50001 (Value.vNum 0)).length = 50001 :=
    List.length_replicate 50001 (Value.vNum 0)
  have htype : typeofV bigArray = "object" := rfl
  have hser : serLen bigArray = 100003 := serLen_bigArray
  have hw : validateOutputWorker bigArray (some c4Schema) =
      Except.ok { ok := true, errors := [] } := by
    rw [validateOutputWorker.eq_def]
    simp only [c4Schema, htype, hser]
    norm_num
  refine ⟨hw, ?_, ?_⟩
  · rw [validateOutputSandbox.eq_def]
    simp only [c4Schema, htype, hser]
    rw [show bigArray = Value.vArr (List.replicate 50001 (Value.vNum 0)) from rfl]
    simp only [hlen]
    norm_num
  · have hok : (validateSlot okCode).ok = true := by
      simp [okCode, validateSlot, walkErrors, localErrors,
        FORBIDDEN_NODE_TYPES, walkList, nodeType]
    rw [handleMessage.eq_def]
    simp only [okReq]
    simp [hok, hw]


/-- Witness for the amended C2 at the empty dispatcher state with a worker
that never answers: the call resolves EXECUTION_TIMEOUT, the handle is
cleared, terminate was called and the next call gets a fresh identity. -/
theorem c2_witness :
    (dispatchRunSlot { worker := none, nextId := 0 } none none).1 =
      SlotResult.failure ("EXECUTION_TIMEOUT") ("Execution timeout") ("execution") ∧
    (dispatchRunSlot { worker := none, nextId := 0 } none none).2.1.worker = none ∧
    (dispatchRunSlot { worker := none, nextId := 0 } none none).2.2 = true ∧
    (ensureWorker (dispatchRunSlot { worker := none, nextId := 0 } none none).2.1).1 ≠
      (ensureWorker { worker := none, nextId := 0 }).1 ∧
    DStateWF (ensureWorker (dispatchRunSlot { worker := none, nextId := 0 } none none).2.1).2 :=
  c2_amended_timeout { worker := none, nextId := 0 }
    (fun _ hw => Option.noConfusion hw) none none
    (fun _ _ he => Option.noConfusion he)

end SlotSandbox
